import Mathlib

/-!
Shallow embedding of the CANopen SDO codec, per-node request queue, TPDO
workflow and mock SDO server of the CanOpenDataViewer repository, together
with theorems settling the specification claims.

Modelling conventions:
* Machine integers (`u8`, `u16`, `u32`) are `Nat`s; casts `x as u8` and
  masks `x & 0xFF` are written `x % 256`, shifts `x >> 8` are `x / 256`,
  except where the source performs genuine bit tests (`& 0xE0`, `& 0x02`,
  `& 0x8000_0000`), which stay as `Nat` bitwise operations.
* Signed integers (`i8`/`i16`/`i32`) are `Int`s obtained from the
  little-endian bit pattern by two's-complement reinterpretation.
* A Rust slice-index panic (out-of-bounds `&data[a..b]`) is modelled by
  `Option`: `none` is the panic outcome, `some` the returned value.
* `f32::from_le_bytes` is a pure bit reinterpretation, so a `Real32`
  value is represented by its 32-bit little-endian bit pattern.
* `String::from_utf8_lossy` followed by `trim_end_matches('\x00')` is
  abstracted to the payload's byte list with trailing zero bytes removed.
-/

deriving instance DecidableEq for Except

namespace CanOpenDataViewer

/-- Value of a byte list read little-endian (first byte least significant). -/
def leVal : List Nat → Nat
  | [] => 0
  | b :: rest => b + 256 * leVal rest

/-- Little-endian byte encoding of `v` in exactly `w` bytes
(the `to_le_bytes` of the corresponding fixed-width integer). -/
def leBytes : Nat → Nat → List Nat
  | 0, _ => []
  | w + 1, v => (v % 256) :: leBytes w (v / 256)

/-- Two's-complement reinterpretation of a `bits`-wide bit pattern as a
signed integer (models `as i8` / `i16::from_le_bytes` / `i32::from_le_bytes`). -/
def toSigned (bits : Nat) (v : Nat) : Int :=
  if v < 2 ^ (bits - 1) then (v : Int) else (v : Int) - 2 ^ bits

/-- Uppercase hexadecimal digit for a value below 16. -/
def hexDigit (n : Nat) : Char :=
  if n < 10 then Char.ofNat (48 + n) else Char.ofNat (55 + n)

/-- The `k` low hexadecimal digits of `v`, most significant first. -/
def hexChars : Nat → Nat → List Char
  | 0, _ => []
  | k + 1, v => hexChars k (v / 16) ++ [hexDigit (v % 16)]

/-- Zero-padded uppercase hexadecimal rendering of `v` to `k` digits,
modelling Rust's `{:0kX}` format for a value that fits in `k` digits. -/
def toHex (k v : Nat) : String := String.mk (hexChars k v)

/-- A classic CAN frame: a (standard, 11-bit) identifier and up to 8 data
bytes. Modelled from the socketcan `CanFrame` used by the repository. -/
structure CanFrame where
  id : Nat
  data : List Nat
deriving DecidableEq

/-- Modelled from the socketcan library: `StandardId::new` accepts raw
identifiers up to `0x7FF` (11 bits) and returns `None` above that. -/
def StandardId.new (raw : Nat) : Option Nat :=
  if raw ≤ 0x7FF then some raw else none

/-- Modelled from the socketcan library: `CanFrame::new` succeeds exactly
when the payload fits a classic CAN frame (at most 8 data bytes). -/
def CanFrame.new (id : Nat) (data : List Nat) : Option CanFrame :=
  if data.length ≤ 8 then some ⟨id, data⟩ else none

/-- SDO data types (`SdoDataType` in `canopen-common/src/sdo.rs`). -/
inductive SdoDataType where
  | UInt8
  | UInt16
  | UInt32
  | Int8
  | Int16
  | Int32
  | Real32
  | VisibleString
  | OctetString
deriving DecidableEq

/-- Decoded SDO response data (`SdoResponseData` in
`canopen-common/src/sdo.rs`). `Real32` carries the little-endian bit
pattern of the `f32`; `String` carries the byte list after trailing-NUL
trimming (UTF-8 lossy decoding abstracted to the underlying bytes). -/
inductive SdoResponseData where
  | UInt8 (v : Nat)
  | UInt16 (v : Nat)
  | UInt32 (v : Nat)
  | Int8 (v : Int)
  | Int16 (v : Int)
  | Int32 (v : Int)
  | Real32 (bits : Nat)
  | String (bytes : List Nat)
  | Bytes (bytes : List Nat)
  | Error (code : Nat) (info : String)
deriving DecidableEq

/-- SDO request (`SdoRequest` in `canopen-common/src/sdo.rs`). -/
structure SdoRequest where
  node_id : Nat
  index : Nat
  subindex : Nat
  expected_type : SdoDataType
deriving DecidableEq

/-- SDO response (`SdoResponse` in `canopen-common/src/sdo.rs`). -/
structure SdoResponse where
  node_id : Nat
  index : Nat
  subindex : Nat
  data : SdoResponseData
  raw_data : List Nat
deriving DecidableEq

/-- SDO error type (`SdoError` in `canopen-common/src/sdo.rs`). -/
inductive SdoError where
  | SocketError (msg : String)
  | Timeout
  | InvalidResponse (msg : String)
  | AbortTransfer (code : Nat) (info : String)
  | ParseError (msg : String)
deriving DecidableEq

/-- `Display` rendering of `SdoError`
(`impl fmt::Display for SdoError` in `canopen-common/src/sdo.rs`). -/
def sdoErrorToString : SdoError → String
  | .SocketError msg => "Socket error: " ++ msg
  | .Timeout => "SDO request timeout"
  | .InvalidResponse msg => "Invalid response: " ++ msg
  | .AbortTransfer code info => "SDO abort 0x" ++ toHex 8 code ++ ": " ++ info
  | .ParseError msg => "Parse error: " ++ msg

/-- `SdoCommand::is_expedited_response` in `canopen-common/src/sdo.rs`:
`(value & 0xE0) == 0x40 && (value & 0x02) != 0`. -/
def SdoCommand.is_expedited_response (value : Nat) : Bool :=
  value &&& 0xE0 == 0x40 && value &&& 0x02 != 0

/-- `get_abort_code_description` in `canopen-common/src/sdo.rs`: the fixed
abort-code → description table with a formatted hexadecimal fallback. -/
def get_abort_code_description (code : Nat) : String :=
  if code = 0x05030000 then "Toggle bit not alternated"
  else if code = 0x05040000 then "SDO protocol timed out"
  else if code = 0x05040001 then "Client/server command specifier not valid or unknown"
  else if code = 0x05040005 then "Out of memory"
  else if code = 0x06010000 then "Unsupported access to an object"
  else if code = 0x06010001 then "Attempt to read a write only object"
  else if code = 0x06010002 then "Attempt to write a read only object"
  else if code = 0x06020000 then "Object does not exist in the object dictionary"
  else if code = 0x06040041 then "Object cannot be mapped to the PDO"
  else if code = 0x06040042 then "The number and length of the objects to be mapped would exceed PDO length"
  else if code = 0x06040043 then "General parameter incompatibility reason"
  else if code = 0x06040047 then "General internal incompatibility in the device"
  else if code = 0x06060000 then "Access failed due to a hardware error"
  else if code = 0x06070010 then "Data type does not match, length of service parameter does not match"
  else if code = 0x06070012 then "Data type does not match, length of service parameter too high"
  else if code = 0x06070013 then "Data type does not match, length of service parameter too low"
  else if code = 0x06090011 then "Sub-index does not exist"
  else if code = 0x06090030 then "Value range of parameter exceeded (only for write access)"
  else if code = 0x06090031 then "Value of parameter written too high"
  else if code = 0x06090032 then "Value of parameter written too low"
  else if code = 0x06090036 then "Maximum value is less than minimum value"
  else if code = 0x08000000 then "General error"
  else if code = 0x08000020 then "Data cannot be transferred or stored to the application"
  else if code = 0x08000021 then "Data cannot be transferred or stored to the application because of local control"
  else if code = 0x08000022 then "Data cannot be transferred or stored to the application because of the present device state"
  else "Unknown abort code: 0x" ++ toHex 8 code

/-- The abort codes present in the fixed description table. -/
def knownAbortCodes : List Nat :=
  [0x05030000, 0x05040000, 0x05040001, 0x05040005, 0x06010000, 0x06010001,
   0x06010002, 0x06020000, 0x06040041, 0x06040042, 0x06040043, 0x06040047,
   0x06060000, 0x06070010, 0x06070012, 0x06070013, 0x06090011, 0x06090030,
   0x06090031, 0x06090032, 0x06090036, 0x08000000, 0x08000020, 0x08000021,
   0x08000022]

/-- Byte list with trailing zero bytes removed
(models `trim_end_matches('\x00')` on the decoded string). -/
def trimTrailingZeros (l : List Nat) : List Nat :=
  (l.reverse.dropWhile (· = 0)).reverse

/-- `parse_payload` in `canopen-common/src/sdo.rs`: decode raw payload
bytes according to the caller-declared data type; fixed-width types are
little-endian exact-width reads that fail when the payload is shorter. -/
def parse_payload (payload : List Nat) (data_type : SdoDataType) :
    Except SdoError SdoResponseData :=
  match data_type with
  | .UInt8 =>
    if 1 ≤ payload.length then .ok (.UInt8 (payload.getD 0 0))
    else .error (.ParseError "Insufficient data for UInt8")
  | .UInt16 =>
    if 2 ≤ payload.length then
      .ok (.UInt16 (leVal [payload.getD 0 0, payload.getD 1 0]))
    else .error (.ParseError "Insufficient data for UInt16")
  | .UInt32 =>
    if 4 ≤ payload.length then
      .ok (.UInt32 (leVal [payload.getD 0 0, payload.getD 1 0,
                           payload.getD 2 0, payload.getD 3 0]))
    else .error (.ParseError "Insufficient data for UInt32")
  | .Int8 =>
    if 1 ≤ payload.length then .ok (.Int8 (toSigned 8 (payload.getD 0 0)))
    else .error (.ParseError "Insufficient data for Int8")
  | .Int16 =>
    if 2 ≤ payload.length then
      .ok (.Int16 (toSigned 16 (leVal [payload.getD 0 0, payload.getD 1 0])))
    else .error (.ParseError "Insufficient data for Int16")
  | .Int32 =>
    if 4 ≤ payload.length then
      .ok (.Int32 (toSigned 32 (leVal [payload.getD 0 0, payload.getD 1 0,
                                       payload.getD 2 0, payload.getD 3 0])))
    else .error (.ParseError "Insufficient data for Int32")
  | .Real32 =>
    if 4 ≤ payload.length then
      .ok (.Real32 (leVal [payload.getD 0 0, payload.getD 1 0,
                           payload.getD 2 0, payload.getD 3 0]))
    else .error (.ParseError "Insufficient data for Real32")
  | .VisibleString => .ok (.String (trimTrailingZeros payload))
  | .OctetString => .ok (.Bytes payload)

/-- `create_sdo_request_frame` in `canopen-common/src/sdo.rs`: 8-byte
upload request on identifier `0x600 + node_id`. -/
def create_sdo_request_frame (request : SdoRequest) :
    Except SdoError CanFrame :=
  match StandardId.new (0x600 + request.node_id) with
  | none => .error (.InvalidResponse "Invalid CAN ID")
  | some request_id =>
    let data : List Nat :=
      [0x40, request.index % 256, request.index / 256 % 256,
       request.subindex, 0, 0, 0, 0]
    match CanFrame.new request_id data with
    | none => .error (.InvalidResponse "Failed to create CAN frame")
    | some frame => .ok frame

/-- `parse_sdo_response` in `canopen-common/src/sdo.rs`. The result is
`none` exactly when the Rust code panics: the expedited branch slices
`&data[4..4 + data_size]` without checking that the frame actually has
`4 + data_size` bytes. -/
def parse_sdo_response (frame : CanFrame) (request : SdoRequest) :
    Option (Except SdoError SdoResponse) :=
  let data := frame.data
  if data.length < 4 then
    some (.error (.InvalidResponse "Frame too short"))
  else
    let command := data.getD 0 0
    let index := leVal [data.getD 1 0, data.getD 2 0]
    let subindex := data.getD 3 0
    if index ≠ request.index ∨ subindex ≠ request.subindex then
      some (.error (.InvalidResponse
        ("Response mismatch: expected index=0x" ++ toHex 4 request.index ++
         ", subindex=" ++ toString request.subindex ++
         ", got index=0x" ++ toHex 4 index ++
         ", subindex=" ++ toString subindex)))
    else if command = 0x80 then
      let abort_code :=
        if 8 ≤ data.length then
          leVal [data.getD 4 0, data.getD 5 0, data.getD 6 0, data.getD 7 0]
        else 0
      some (.error (.AbortTransfer abort_code
        (get_abort_code_description abort_code)))
    else if SdoCommand.is_expedited_response command then
      let n := (command &&& 0x0C) >>> 2
      let data_size := 4 - n
      if 4 + data_size ≤ data.length then
        let payload := (data.drop 4).take data_size
        match parse_payload payload request.expected_type with
        | .ok response_data =>
          some (.ok ⟨request.node_id, request.index, request.subindex,
                     response_data, data⟩)
        | .error e => some (.error e)
      else
        none
    else
      some (.error (.InvalidResponse
        ("Segmented SDO transfer not implemented yet (command=0x" ++
         toHex 2 command ++ ")")))

/-- Byte width of the fixed-width data types; `none` for the
variable-length string types. Used to state the specification-level
"exact-width little-endian read" property. -/
def widthOf : SdoDataType → Option Nat
  | .UInt8 => some 1
  | .UInt16 => some 2
  | .UInt32 => some 4
  | .Int8 => some 1
  | .Int16 => some 2
  | .Int32 => some 4
  | .Real32 => some 4
  | .VisibleString => none
  | .OctetString => none

/-- The typed value carried by a fixed-width bit pattern `v`: unsigned
types carry `v` itself, signed types its two's-complement
reinterpretation, `Real32` its raw bit pattern. The string cases are
unreachable for fixed-width types. -/
def valueOfBits : SdoDataType → Nat → SdoResponseData
  | .UInt8, v => .UInt8 v
  | .UInt16, v => .UInt16 v
  | .UInt32, v => .UInt32 v
  | .Int8, v => .Int8 (toSigned 8 v)
  | .Int16, v => .Int16 (toSigned 16 v)
  | .Int32, v => .Int32 (toSigned 32 v)
  | .Real32, v => .Real32 v
  | .VisibleString, _ => .Bytes []
  | .OctetString, _ => .Bytes []

/-- Specification-level expedited-response test, written from the spec's
words: the command byte's top 3 bits (of a byte) are `010` and its
expedited bit (bit 1) is set. -/
def specIsExpedited (c : Nat) : Bool :=
  c >>> 5 == 2 && c &&& 0x02 != 0

/-- Specification-level unused-byte count, written from the spec's words:
bits 3–2 of the command byte. -/
def specN (c : Nat) : Nat := c / 4 % 4

/-- `SdoServer::create_abort_response` in
`mock-canopen-node/src/sdo_server.rs`. -/
def create_abort_response (node_id index subindex abort_code : Nat) :
    Option CanFrame :=
  match StandardId.new (0x580 + node_id) with
  | none => none
  | some response_id =>
    CanFrame.new response_id
      ([0x80, index % 256, index / 256 % 256, subindex] ++ leBytes 4 abort_code)

/-- `SdoServer::create_expedited_response` in
`mock-canopen-node/src/sdo_server.rs`: command byte `0x43 | (n << 2)`
with `n = 4 - data.len()`, payload at bytes 4 onward, zero padded. -/
def create_expedited_response (node_id index subindex : Nat)
    (data : List Nat) : Option CanFrame :=
  if 4 < data.length then
    create_abort_response node_id index subindex 0x05040001
  else
    match StandardId.new (0x580 + node_id) with
    | none => none
    | some response_id =>
      let n := 4 - data.length
      let command := 0x43 ||| (n <<< 2)
      CanFrame.new response_id
        ([command, index % 256, index / 256 % 256, subindex] ++
         data.take 4 ++ List.replicate (4 - data.length) 0)

/-- A pending SDO operation (`PendingSdoRequest` in
`canopen-viewer/src/canopen/connect.rs`). The wrapped operation (the
read/write request plus its oneshot result channel) is abstracted to an
identifier for its single waiter; the submission `Instant` is a `Nat`
timestamp. -/
structure PendingSdoRequest where
  operation : Nat
  timestamp : Nat
deriving DecidableEq

/-- Per-node session state (`NodeState` in
`canopen-viewer/src/canopen/connect.rs`): a FIFO queue of pending
operations (front at the head of the list), an optional active
operation, and the node's timeout duration. -/
structure NodeState where
  pending_requests : List PendingSdoRequest
  active_request : Option PendingSdoRequest
  timeout : Nat
deriving DecidableEq

/-- `NodeState::queue_request`: push onto the back of the FIFO queue. -/
def NodeState.queue_request (s : NodeState) (r : PendingSdoRequest) :
    NodeState :=
  { s with pending_requests := s.pending_requests ++ [r] }

/-- `NodeState::start_next_request`: when no request is active, pop the
front of the queue into the active slot; return the (possibly unchanged)
active request. -/
def NodeState.start_next_request (s : NodeState) :
    NodeState × Option PendingSdoRequest :=
  if s.active_request.isNone then
    let s' := { s with
      active_request := s.pending_requests.head?,
      pending_requests := s.pending_requests.tail }
    (s', s'.active_request)
  else
    (s, s.active_request)

/-- `NodeState::complete_active_request`: take the active request out,
freeing the slot. -/
def NodeState.complete_active_request (s : NodeState) :
    NodeState × Option PendingSdoRequest :=
  ({ s with active_request := none }, s.active_request)

/-- `NodeState::check_timeout` at clock value `now`: if the active
request's age strictly exceeds the node's timeout, complete it. -/
def NodeState.check_timeout (now : Nat) (s : NodeState) :
    NodeState × Option PendingSdoRequest :=
  match s.active_request with
  | some active =>
    if s.timeout < now - active.timestamp then s.complete_active_request
    else (s, none)
  | none => (s, none)

/-- One abstract operation on a node's session state, for stating
queue-discipline invariants over arbitrary operation sequences. -/
inductive NodeOp where
  | queue (r : PendingSdoRequest)
  | startNext
  | complete
  | checkTimeout (now : Nat)
deriving DecidableEq

/-- Apply one operation to the session state (dropping the returned
request, which does not affect the state). -/
def NodeState.applyOp (s : NodeState) : NodeOp → NodeState
  | .queue r => s.queue_request r
  | .startNext => s.start_next_request.1
  | .complete => s.complete_active_request.1
  | .checkTimeout now => (NodeState.check_timeout now s).1

/-- Number of active operations held by a session state (0 or 1 by
construction of `NodeState`). -/
def NodeState.activeCount (s : NodeState) : Nat :=
  match s.active_request with
  | some _ => 1
  | none => 0

/-- `check_timeouts` in `canopen-viewer/src/canopen/connect.rs`: run
`NodeState::check_timeout` on every node session; each timed-out
operation's waiter is sent `Err(SdoError::Timeout)`. Returns the updated
sessions and the list of (waiter, error) deliveries. -/
def check_timeouts (now : Nat) (nodes : List (Nat × NodeState)) :
    List (Nat × NodeState) × List (Nat × SdoError) :=
  (nodes.map fun p => (p.1, (NodeState.check_timeout now p.2).1),
   nodes.filterMap fun p =>
     ((NodeState.check_timeout now p.2).2).map fun r =>
       (r.operation, SdoError.Timeout))

/-- Connection-layer error type (`CANopenError` in
`canopen-viewer/src/canopen/connect.rs`). `NodeNotConnected` is marked
`#[allow(dead_code)]` ("Reserved for future use") in the source. -/
inductive CANopenError where
  | SocketError (msg : String)
  | NodeNotConnected (node_id : Nat)
  | RequestFailed (msg : String)
deriving DecidableEq

/-- `impl From<SdoError> for CANopenError`: every SDO error surfaces to
callers as `RequestFailed` carrying the error's display string. -/
def CANopenError.from_sdo (e : SdoError) : CANopenError :=
  .RequestFailed (sdoErrorToString e)

/-- Association-list lookup modelling `HashMap::get_mut` over the
manager's node table. -/
def lookupNode (nodes : List (Nat × NodeState)) (node_id : Nat) :
    Option NodeState :=
  (nodes.find? fun p => p.1 == node_id).map (·.2)

/-- Replace the state of node `node_id` in the table. -/
def updateNode (nodes : List (Nat × NodeState)) (node_id : Nat)
    (s : NodeState) : List (Nat × NodeState) :=
  nodes.map fun p => if p.1 == node_id then (p.1, s) else p

/-- The `ConnectionMessage::SdoRequest` / `SdoWriteRequest` arm of
`connection_manager_task` in `canopen-viewer/src/canopen/connect.rs`:
a registered node gets the operation queued (and started if the node is
idle); an unregistered node is answered immediately with
`SdoError::InvalidResponse("Node {id} not connected")` and no queue is
touched. Returns the updated table and the immediately delivered error,
if any. -/
def handle_sdo_request_command (nodes : List (Nat × NodeState))
    (node_id : Nat) (r : PendingSdoRequest) :
    List (Nat × NodeState) × Option SdoError :=
  match lookupNode nodes node_id with
  | some node_state =>
    let queued := node_state.queue_request r
    (updateNode nodes node_id queued.start_next_request.1, none)
  | none =>
    (nodes, some (.InvalidResponse
      ("Node " ++ toString node_id ++ " not connected")))

/-- TPDO mapping entry (`TpdoMapping` in
`canopen-viewer/src/canopen/connect.rs`). -/
structure TpdoMapping where
  index : Nat
  sub_index : Nat
  bit_length : Nat
deriving DecidableEq

/-- TPDO configuration parameters (`TpdoConfigParams` in
`canopen-viewer/src/canopen/connect.rs`). -/
structure TpdoConfigParams where
  tpdo_number : Nat
  cob_id : Nat
  transmission_type : Nat
  inhibit_time_100us : Nat
  event_timer_ms : Nat
  mappings : List TpdoMapping
deriving DecidableEq

/-- SDO write request (`SdoWriteRequest` in `canopen-common`). -/
structure SdoWriteRequest where
  node_id : Nat
  index : Nat
  subindex : Nat
  data : List Nat
deriving DecidableEq

/-- The ordered list of SDO writes `CANopenNodeHandle::configure_tpdo`
issues after validation: disable (COB-ID with bit 31 set), zero the
mapping count, one packed mapping per entry at subindexes 1..N, the
final mapping count, the transmission type, inhibit time and event timer
only when non-zero, and re-enable with the plain COB-ID. -/
def tpdoWriteSequence (node_id : Nat) (config : TpdoConfigParams) :
    List SdoWriteRequest :=
  let comm_param_index := 0x1800 + (config.tpdo_number - 1)
  let mapping_param_index := 0x1A00 + (config.tpdo_number - 1)
  [⟨node_id, comm_param_index, 1, leBytes 4 (config.cob_id ||| 0x80000000)⟩,
   ⟨node_id, mapping_param_index, 0, [0]⟩] ++
  (config.mappings.enum.map fun im =>
    ⟨node_id, mapping_param_index, im.1 + 1,
     leBytes 4 ((im.2.index <<< 16) ||| (im.2.sub_index <<< 8) |||
                im.2.bit_length)⟩) ++
  [⟨node_id, mapping_param_index, 0, [config.mappings.length % 256]⟩,
   ⟨node_id, comm_param_index, 2, [config.transmission_type]⟩] ++
  (if 0 < config.inhibit_time_100us then
    [⟨node_id, comm_param_index, 3, leBytes 2 config.inhibit_time_100us⟩]
   else []) ++
  (if 0 < config.event_timer_ms then
    [⟨node_id, comm_param_index, 5, leBytes 2 config.event_timer_ms⟩]
   else []) ++
  [⟨node_id, comm_param_index, 1, leBytes 4 config.cob_id⟩]

/-- Run a list of SDO writes in order against a device oracle `dev`,
stopping at the first failure (the `?` operator after each
`sdo_write(...).await`). Returns the writes actually performed and the
overall outcome. -/
def runWrites (dev : SdoWriteRequest → Except CANopenError Unit) :
    List SdoWriteRequest → List SdoWriteRequest × Except CANopenError Unit
  | [] => ([], .ok ())
  | w :: rest =>
    match dev w with
    | .ok _ =>
      let r := runWrites dev rest
      (w :: r.1, r.2)
    | .error e => ([w], .error e)

/-- `CANopenNodeHandle::configure_tpdo` in
`canopen-viewer/src/canopen/connect.rs`, with `sdo_write` abstracted to
the device oracle `dev`: validate the TPDO number and mapping count,
then issue the write transaction in order, aborting on the first
failure. Returns the performed writes and the outcome. -/
def configure_tpdo (dev : SdoWriteRequest → Except CANopenError Unit)
    (node_id : Nat) (config : TpdoConfigParams) :
    List SdoWriteRequest × Except CANopenError Unit :=
  if config.tpdo_number < 1 ∨ 4 < config.tpdo_number then
    ([], .error (.RequestFailed "TPDO number must be 1-4"))
  else if 8 < config.mappings.length then
    ([], .error (.RequestFailed "Maximum 8 objects can be mapped to a TPDO"))
  else
    runWrites dev (tpdoWriteSequence node_id config)

/-- One object mapped into a TPDO (`TpdoMappedObject` in
`canopen-viewer/src/communication.rs`). -/
structure TpdoMappedObject where
  index : Nat
  sub_index : Nat
  bit_length : Nat
  data_type : SdoDataType
  name : String
deriving DecidableEq

/-- A discovered TPDO configuration (`TpdoConfig` in
`canopen-viewer/src/communication.rs`). -/
structure TpdoConfig where
  tpdo_number : Nat
  cob_id : Nat
  mapped_objects : List TpdoMappedObject
deriving DecidableEq

/-- One iteration of the inner mapping loop of
`discover_tpdos_from_device` (`canopen-viewer/src/communication.rs`):
read the 32-bit mapping value for one subindex and decompose it; any
read failure, unexpected type, or unsupported bit length skips just this
entry (`continue` of the inner loop). The per-node SDO read is
abstracted to the oracle `read`, which yields the response's typed data. -/
def readMappingEntry (read : SdoRequest → Except SdoError SdoResponseData)
    (node_id mapping_param_index sub : Nat) : Option TpdoMappedObject :=
  match read ⟨node_id, mapping_param_index, sub, .UInt32⟩ with
  | .ok (.UInt32 v) =>
    let obj_index := (v >>> 16) &&& 0xFFFF
    let obj_subindex := (v >>> 8) &&& 0xFF
    let bit_length := v &&& 0xFF
    let name := "0x" ++ toHex 4 obj_index ++ ":" ++ toHex 2 obj_subindex
    if bit_length = 8 then
      some ⟨obj_index, obj_subindex, bit_length, .UInt8, name⟩
    else if bit_length = 16 then
      some ⟨obj_index, obj_subindex, bit_length, .UInt16, name⟩
    else if bit_length = 32 then
      some ⟨obj_index, obj_subindex, bit_length, .UInt32, name⟩
    else
      none
  | .ok _ => none
  | .error _ => none

/-- One iteration of the outer loop of `discover_tpdos_from_device`: read
the COB-ID (skipping the TPDO when disabled by bit 31, on read failure,
or on an unexpected type), read the mapping count (skipping when zero or
unreadable), collect the readable mapping entries, and produce a
`TpdoConfig` only when at least one entry was obtained. -/
def discoverOne (read : SdoRequest → Except SdoError SdoResponseData)
    (node_id tpdo_num : Nat) : Option TpdoConfig :=
  let comm_param_index := 0x1800 + (tpdo_num - 1)
  let mapping_param_index := 0x1A00 + (tpdo_num - 1)
  match read ⟨node_id, comm_param_index, 1, .UInt32⟩ with
  | .ok (.UInt32 v) =>
    if v &&& 0x80000000 ≠ 0 then none
    else
      let cob_id := v &&& 0x7FF
      match read ⟨node_id, mapping_param_index, 0, .UInt8⟩ with
      | .ok (.UInt8 num_mapped) =>
        if num_mapped = 0 then none
        else
          let mapped_objects := (List.range' 1 num_mapped).filterMap
            (readMappingEntry read node_id mapping_param_index)
          if mapped_objects.isEmpty then none
          else some ⟨tpdo_num, cob_id, mapped_objects⟩
      | .ok _ => none
      | .error _ => none
  | .ok _ => none
  | .error _ => none

/-- `discover_tpdos_from_device` in `canopen-viewer/src/communication.rs`:
try TPDO numbers 1 through 4, keeping the configurations of the
iterations that produced one. -/
def discover_tpdos_from_device
    (read : SdoRequest → Except SdoError SdoResponseData)
    (node_id : Nat) : List TpdoConfig :=
  (List.range' 1 4).filterMap (discoverOne read node_id)

lemma take_one (l : List Nat) (h : 1 ≤ l.length) :
    l.take 1 = [l.getD 0 0] := by
  rcases l with _ | ⟨a, t⟩ <;> simp_all

lemma take_two (l : List Nat) (h : 2 ≤ l.length) :
    l.take 2 = [l.getD 0 0, l.getD 1 0] := by
  rcases l with _ | ⟨a, _ | ⟨b, t⟩⟩ <;> simp_all

lemma take_four (l : List Nat) (h : 4 ≤ l.length) :
    l.take 4 = [l.getD 0 0, l.getD 1 0, l.getD 2 0, l.getD 3 0] := by
  rcases l with _ | ⟨a, _ | ⟨b, _ | ⟨c, _ | ⟨d, t⟩⟩⟩⟩ <;> simp_all

lemma leVal_split (i : Nat) (h : i < 65536) :
    leVal [i % 256, i / 256 % 256] = i := by
  simp [leVal]; omega

set_option maxRecDepth 4096 in
lemma bitIdentities : ∀ c < 256,
    (SdoCommand.is_expedited_response c = specIsExpedited c ∧
     (c &&& 0x0C) >>> 2 = specN c) := by
  decide

lemma parse_payload_fixed (payload : List Nat) (ty : SdoDataType) (w : Nat)
    (hw : widthOf ty = some w) :
    (w ≤ payload.length →
      parse_payload payload ty = .ok (valueOfBits ty (leVal (payload.take w)))) ∧
    (payload.length < w →
      ∃ msg, parse_payload payload ty = .error (.ParseError msg)) := by
  cases ty <;> simp [widthOf] at hw <;> subst hw <;> constructor <;> intro h <;>
    simp [parse_payload, h, valueOfBits, Nat.not_le.mpr h]
  · rw [take_one payload h]; simp [leVal, List.getD_eq_getElem?_getD]
  · rw [take_two payload h]; simp [leVal, List.getD_eq_getElem?_getD]
  · rw [take_four payload h]; simp [leVal, List.getD_eq_getElem?_getD]
  · rw [take_one payload h]; simp [leVal, List.getD_eq_getElem?_getD]
  · rw [take_two payload h]; simp [leVal, List.getD_eq_getElem?_getD]
  · rw [take_four payload h]; simp [leVal, List.getD_eq_getElem?_getD]
  · rw [take_four payload h]; simp [leVal, List.getD_eq_getElem?_getD]

lemma parse_sdo_response_abort_eq (id b1 b2 b3 b4 b5 b6 b7 : Nat)
    (rest : List Nat) (request : SdoRequest)
    (hidx : leVal [b1, b2] = request.index)
    (hsub : b3 = request.subindex) :
    parse_sdo_response
        ⟨id, 0x80 :: b1 :: b2 :: b3 :: b4 :: b5 :: b6 :: b7 :: rest⟩ request =
      some (.error (.AbortTransfer (leVal [b4, b5, b6, b7])
        (get_abort_code_description (leVal [b4, b5, b6, b7])))) := by
  simp [parse_sdo_response, hidx, hsub]

lemma parse_sdo_response_expedited_eq (id c b1 b2 b3 : Nat)
    (rest : List Nat) (request : SdoRequest)
    (hrest : 4 ≤ rest.length)
    (hidx : leVal [b1, b2] = request.index)
    (hsub : b3 = request.subindex)
    (habort : c ≠ 0x80)
    (hexp : SdoCommand.is_expedited_response c = true) :
    parse_sdo_response ⟨id, c :: b1 :: b2 :: b3 :: rest⟩ request =
      match parse_payload (rest.take (4 - (c &&& 0x0C) >>> 2))
          request.expected_type with
      | .ok d => some (.ok ⟨request.node_id, request.index, request.subindex,
                            d, c :: b1 :: b2 :: b3 :: rest⟩)
      | .error e => some (.error e) := by
  simp [parse_sdo_response, hidx, hsub, habort, hexp]
  rw [if_neg (by omega), if_pos (by omega)]

lemma parse_sdo_response_segmented_eq (id c b1 b2 b3 : Nat)
    (rest : List Nat) (request : SdoRequest)
    (hidx : leVal [b1, b2] = request.index)
    (hsub : b3 = request.subindex)
    (habort : c ≠ 0x80)
    (hexp : SdoCommand.is_expedited_response c = false) :
    parse_sdo_response ⟨id, c :: b1 :: b2 :: b3 :: rest⟩ request =
      some (.error (.InvalidResponse
        ("Segmented SDO transfer not implemented yet (command=0x" ++
         toHex 2 c ++ ")"))) := by
  simp [parse_sdo_response, hidx, hsub, habort, hexp]

/-- C1: the claim states that `parse_sdo_response` is total on every CAN
frame with 0 to 8 data bytes, in particular on frames of length 4 to 7
whose command byte matches the expedited-response pattern. The code
violates this: such a frame reaches the slice `&data[4..4 + data_size]`
with `4 + data_size` beyond the frame's length, an out-of-bounds index
(a panic, modelled as `none`). The first conjunct evaluates the parser
at a matching 4-byte frame with expedited command byte `0x43`
(`data_size = 4`, slice `data[4..8]` of a 4-byte buffer); the second
shows frames shorter than 4 bytes do fail with the distinct "too short"
error as claimed. -/
theorem parse_sdo_response_oob_on_short_expedited_frame :
    parse_sdo_response ⟨0x581, [0x43, 0x00, 0x20, 0x01]⟩
        ⟨1, 0x2000, 1, .UInt32⟩ = none ∧
    parse_sdo_response ⟨0x581, [0x43, 0x00, 0x20]⟩ ⟨1, 0x2000, 1, .UInt32⟩ =
      some (.error (.InvalidResponse "Frame too short")) := by
  constructor <;> decide

/-- C5: a response frame with command byte 0x80 and matching
index/subindex decodes to an `AbortTransfer` error whose code is bytes
4–7 little-endian and whose description is the fixed table's entry;
code 0x06020000 maps to exactly "Object does not exist in the object
dictionary", and any code outside the table renders as the formatted
hexadecimal fallback string. -/
theorem abort_decoding_correct (id b1 b2 b3 b4 b5 b6 b7 : Nat)
    (rest : List Nat) (request : SdoRequest)
    (hidx : leVal [b1, b2] = request.index)
    (hsub : b3 = request.subindex) :
    (parse_sdo_response
        ⟨id, 0x80 :: b1 :: b2 :: b3 :: b4 :: b5 :: b6 :: b7 :: rest⟩ request =
      some (.error (.AbortTransfer (leVal [b4, b5, b6, b7])
        (get_abort_code_description (leVal [b4, b5, b6, b7]))))) ∧
    get_abort_code_description 0x06020000 =
      "Object does not exist in the object dictionary" ∧
    (∀ code, code ∉ knownAbortCodes →
      get_abort_code_description code =
        "Unknown abort code: 0x" ++ toHex 8 code) := by
  refine ⟨parse_sdo_response_abort_eq id b1 b2 b3 b4 b5 b6 b7 rest request
    hidx hsub, by decide, ?_⟩
  intro code hc
  simp only [knownAbortCodes, List.mem_cons, List.not_mem_nil, or_false,
    not_or] at hc
  obtain ⟨n1, n2, n3, n4, n5, n6, n7, n8, n9, n10, n11, n12, n13, n14, n15,
    n16, n17, n18, n19, n20, n21, n22, n23, n24, n25⟩ := hc
  simp [get_abort_code_description, n1, n2, n3, n4, n5, n6, n7, n8, n9, n10,
    n11, n12, n13, n14, n15, n16, n17, n18, n19, n20, n21, n22, n23, n24, n25]

/-- C5 witness: the abort theorem applied to the concrete frame
`[0x80, 00, 20, 01, 00, 00, 02, 06]` against a request for
index 0x2000 subindex 1, and the fallback applied to code 0x12345678. -/
theorem abort_decoding_correct_witness :
    parse_sdo_response ⟨0x581, [0x80, 0x00, 0x20, 0x01, 0x00, 0x00, 0x02, 0x06]⟩
        ⟨1, 0x2000, 1, .UInt32⟩ =
      some (.error (.AbortTransfer 0x06020000
        "Object does not exist in the object dictionary")) ∧
    get_abort_code_description 0x12345678 =
      "Unknown abort code: 0x12345678" := by
  have h := abort_decoding_correct 0x581 0x00 0x20 0x01 0x00 0x00 0x02 0x06 []
    ⟨1, 0x2000, 1, .UInt32⟩ (by decide) (by decide)
  exact ⟨h.1.trans (by decide), h.2.2 0x12345678 (by decide)⟩

/-- C10: for every `u8` node id, `create_sdo_request_frame` returns `Ok`:
the identifier `0x600 + node_id` is at most 0x6FF (a valid standard
identifier), the fixed 8-byte payload always forms a valid frame, and
both error branches are unreachable. -/
theorem create_sdo_request_frame_total (request : SdoRequest)
    (h : request.node_id < 256) :
    create_sdo_request_frame request =
      .ok ⟨0x600 + request.node_id,
           [0x40, request.index % 256, request.index / 256 % 256,
            request.subindex, 0, 0, 0, 0]⟩ ∧
    0x600 + request.node_id ≤ 0x6FF := by
  have hid : 0x600 + request.node_id ≤ 0x7FF := by omega
  refine ⟨?_, by omega⟩
  simp [create_sdo_request_frame, StandardId.new, CanFrame.new, hid]

/-- C10 witness: the request-frame theorem applied at node 5,
index 0x2000, subindex 1. -/
theorem create_sdo_request_frame_total_witness :
    create_sdo_request_frame ⟨5, 0x2000, 1, .UInt32⟩ =
      .ok ⟨0x605, [0x40, 0x00, 0x20, 0x01, 0, 0, 0, 0]⟩ ∧
    (0x605 : Nat) ≤ 0x6FF := by
  have h := create_sdo_request_frame_total ⟨5, 0x2000, 1, .UInt32⟩ (by decide)
  exact ⟨h.1.trans (by decide), by decide⟩

/-- C2: on any response frame of length at least 8 whose index/subindex
match the request and whose command byte is not the abort code, the
parser treats the frame as expedited exactly when the spec-level bit
pattern holds (top 3 bits `010`, expedited bit set); it then takes
`n` = bits 3–2 of the command byte, a payload of `4 − n` bytes starting
at byte 4, and decodes it as an exact-width little-endian read of the
request's declared (fixed-width) type, returning a `ParseError` exactly
when the payload is shorter than the declared width. -/
theorem expedited_decode_refines_spec (id c b1 b2 b3 : Nat) (rest : List Nat)
    (request : SdoRequest) (w : Nat)
    (hw : widthOf request.expected_type = some w)
    (hrest : 4 ≤ rest.length)
    (hc : c < 256)
    (hidx : leVal [b1, b2] = request.index)
    (hsub : b3 = request.subindex)
    (habort : c ≠ 0x80) :
    (SdoCommand.is_expedited_response c = specIsExpedited c) ∧
    (specIsExpedited c = true →
      (w ≤ 4 - specN c →
        parse_sdo_response ⟨id, c :: b1 :: b2 :: b3 :: rest⟩ request =
          some (.ok ⟨request.node_id, request.index, request.subindex,
            valueOfBits request.expected_type
              (leVal ((rest.take (4 - specN c)).take w)),
            c :: b1 :: b2 :: b3 :: rest⟩)) ∧
      (4 - specN c < w →
        ∃ msg, parse_sdo_response ⟨id, c :: b1 :: b2 :: b3 :: rest⟩ request =
          some (.error (.ParseError msg)))) ∧
    (specIsExpedited c = false →
      ∃ msg, parse_sdo_response ⟨id, c :: b1 :: b2 :: b3 :: rest⟩ request =
        some (.error (.InvalidResponse msg))) := by
  obtain ⟨hexpEq, hnEq⟩ := bitIdentities c hc
  have hplen : (rest.take (4 - specN c)).length = 4 - specN c := by
    have hlt : specN c < 4 := Nat.mod_lt _ (by norm_num)
    simp [List.length_take]
    omega
  refine ⟨hexpEq, ?_, ?_⟩
  · intro hexp
    have hexp' : SdoCommand.is_expedited_response c = true := by
      rw [hexpEq]; exact hexp
    have hred := parse_sdo_response_expedited_eq id c b1 b2 b3 rest request
      hrest hidx hsub habort hexp'
    rw [hnEq] at hred
    obtain ⟨hok, herr⟩ := parse_payload_fixed (rest.take (4 - specN c))
      request.expected_type w hw
    constructor
    · intro hwle
      rw [hred, hok (by omega)]
    · intro hwgt
      obtain ⟨msg, hmsg⟩ := herr (by omega)
      exact ⟨msg, by rw [hred, hmsg]⟩
  · intro hnexp
    have hfalse : SdoCommand.is_expedited_response c = false := by
      rw [hexpEq]; exact hnexp
    exact ⟨_, parse_sdo_response_segmented_eq id c b1 b2 b3 rest request
      hidx hsub habort hfalse⟩

/-- C2 witness: the expedited-decode theorem applied to the spec's
concrete scenario, command 0x43 (n = 0, 4 bytes), index 0x2000,
subindex 1, payload `[0x64, 0, 0, 0]`, expected type UInt32,
decoding to 100. -/
theorem expedited_decode_refines_spec_witness :
    parse_sdo_response
        ⟨0x581, [0x43, 0x00, 0x20, 0x01, 0x64, 0x00, 0x00, 0x00]⟩
        ⟨1, 0x2000, 1, .UInt32⟩ =
      some (.ok ⟨1, 0x2000, 1, .UInt32 100,
        [0x43, 0x00, 0x20, 0x01, 0x64, 0x00, 0x00, 0x00]⟩) := by
  have h := ((expedited_decode_refines_spec 0x581 0x43 0x00 0x20 0x01
    [0x64, 0x00, 0x00, 0x00] ⟨1, 0x2000, 1, .UInt32⟩ 4 (by decide)
    (by decide) (by decide) (by decide) (by decide) (by decide)).2.1
    (by decide)).1 (by decide)
  exact h.trans (by decide)

lemma leBytes_length (w v : Nat) : (leBytes w v).length = w := by
  induction w generalizing v with
  | zero => simp [leBytes]
  | succ k ih => simp [leBytes, ih]

lemma leVal_leBytes_one (v : Nat) (h : v < 2 ^ (8 * 1)) :
    leVal (leBytes 1 v) = v := by
  simp [leBytes, leVal]; omega

lemma leVal_leBytes_two (v : Nat) (h : v < 2 ^ (8 * 2)) :
    leVal (leBytes 2 v) = v := by
  simp [leBytes, leVal]; omega

lemma leVal_leBytes_four (v : Nat) (h : v < 2 ^ (8 * 4)) :
    leVal (leBytes 4 v) = v := by
  simp [leBytes, leVal]; omega

lemma mock_roundtrip_core (ty : SdoDataType) (w : Nat)
    (hw : widthOf ty = some w) (hw4 : 1 ≤ w ∧ w ≤ 4)
    (hexp : SdoCommand.is_expedited_response (0x43 ||| ((4 - w) <<< 2)) = true)
    (habort : 0x43 ||| ((4 - w) <<< 2) ≠ 0x80)
    (hsz : 4 - ((0x43 ||| ((4 - w) <<< 2)) &&& 0x0C) >>> 2 = w)
    (v : Nat) (hval : leVal (leBytes w v) = v)
    (node_id index subindex : Nat) (hn : node_id < 256)
    (hidx : index < 65536) :
    ∃ frame,
      create_expedited_response node_id index subindex (leBytes w v) =
        some frame ∧
      frame.data = (0x43 ||| ((4 - w) <<< 2)) :: index % 256 ::
        index / 256 % 256 :: subindex ::
        (leBytes w v ++ List.replicate (4 - w) 0) ∧
      parse_sdo_response frame ⟨node_id, index, subindex, ty⟩ =
        some (.ok ⟨node_id, index, subindex, valueOfBits ty v, frame.data⟩) := by
  have hid : 0x580 + node_id ≤ 0x7FF := by omega
  refine ⟨⟨0x580 + node_id, (0x43 ||| ((4 - w) <<< 2)) :: index % 256 ::
    index / 256 % 256 :: subindex ::
    (leBytes w v ++ List.replicate (4 - w) 0)⟩, ?_, rfl, ?_⟩
  · have h1 : ¬ 4 < (leBytes w v).length := by rw [leBytes_length]; omega
    have htk : (leBytes w v).take 4 = leBytes w v :=
      List.take_of_length_le (by rw [leBytes_length]; omega)
    simp [create_expedited_response, h1, StandardId.new, hid, CanFrame.new,
      htk, leBytes_length]
    rw [if_neg (by omega), if_pos (by omega)]
  · rw [parse_sdo_response_expedited_eq (0x580 + node_id)
      (0x43 ||| ((4 - w) <<< 2)) (index % 256) (index / 256 % 256) subindex
      (leBytes w v ++ List.replicate (4 - w) 0)
      ⟨node_id, index, subindex, ty⟩
      (by simp [leBytes_length]; omega) (leVal_split index hidx) rfl
      habort hexp]
    rw [hsz]
    have htake : (leBytes w v ++ List.replicate (4 - w) 0).take w =
        leBytes w v := by
      have h := List.take_left (leBytes w v) (List.replicate (4 - w) 0)
      rwa [leBytes_length] at h
    rw [htake,
      (parse_payload_fixed (leBytes w v) ty w hw).1 (by rw [leBytes_length]),
      List.take_of_length_le (by rw [leBytes_length]), hval]

/-- C6: for every fixed-width data type and every value fitting its
exact-width little-endian encoding (at most 4 bytes), the mock server's
expedited response frame — command byte `0x43 | (n << 2)` with
`n = 4 − payload length`, payload at bytes 4 onward — decoded by the
client codec against a matching request yields the original value. -/
theorem mock_expedited_roundtrip (ty : SdoDataType) (w : Nat)
    (hw : widthOf ty = some w) (v : Nat) (hv : v < 2 ^ (8 * w))
    (node_id index subindex : Nat) (hn : node_id < 256)
    (hidx : index < 65536) :
    ∃ frame,
      create_expedited_response node_id index subindex (leBytes w v) =
        some frame ∧
      frame.data = (0x43 ||| ((4 - w) <<< 2)) :: index % 256 ::
        index / 256 % 256 :: subindex ::
        (leBytes w v ++ List.replicate (4 - w) 0) ∧
      parse_sdo_response frame ⟨node_id, index, subindex, ty⟩ =
        some (.ok ⟨node_id, index, subindex, valueOfBits ty v, frame.data⟩) := by
  cases ty <;> simp [widthOf] at hw <;> subst hw
  case UInt8 =>
    exact mock_roundtrip_core .UInt8 1 (by decide) (by omega) (by decide)
      (by decide) (by decide) v (leVal_leBytes_one v hv)
      node_id index subindex hn hidx
  case UInt16 =>
    exact mock_roundtrip_core .UInt16 2 (by decide) (by omega) (by decide)
      (by decide) (by decide) v (leVal_leBytes_two v hv)
      node_id index subindex hn hidx
  case UInt32 =>
    exact mock_roundtrip_core .UInt32 4 (by decide) (by omega) (by decide)
      (by decide) (by decide) v (leVal_leBytes_four v hv)
      node_id index subindex hn hidx
  case Int8 =>
    exact mock_roundtrip_core .Int8 1 (by decide) (by omega) (by decide)
      (by decide) (by decide) v (leVal_leBytes_one v hv)
      node_id index subindex hn hidx
  case Int16 =>
    exact mock_roundtrip_core .Int16 2 (by decide) (by omega) (by decide)
      (by decide) (by decide) v (leVal_leBytes_two v hv)
      node_id index subindex hn hidx
  case Int32 =>
    exact mock_roundtrip_core .Int32 4 (by decide) (by omega) (by decide)
      (by decide) (by decide) v (leVal_leBytes_four v hv)
      node_id index subindex hn hidx
  case Real32 =>
    exact mock_roundtrip_core .Real32 4 (by decide) (by omega) (by decide)
      (by decide) (by decide) v (leVal_leBytes_four v hv)
      node_id index subindex hn hidx

/-- C6 witness: the round-trip theorem applied to the spec's end-to-end
scenario — a static UInt16 value 0x1234 at (0x1000, 0x00) on node 2,
read with expected type UInt16, decoding to exactly 4660. -/
theorem mock_expedited_roundtrip_witness :
    ∃ frame,
      create_expedited_response 2 0x1000 0x00 (leBytes 2 0x1234) =
        some frame ∧
      parse_sdo_response frame ⟨2, 0x1000, 0x00, .UInt16⟩ =
        some (.ok ⟨2, 0x1000, 0x00, .UInt16 4660, frame.data⟩) := by
  obtain ⟨frame, h1, _, h3⟩ := mock_expedited_roundtrip .UInt16 2 (by decide)
    0x1234 (by decide) 2 0x1000 0x00 (by decide) (by decide)
  exact ⟨frame, h1, h3⟩

/-- C3: every sequence of session-state operations preserves "at most one
active operation per device"; `start_next_request` activates the earliest
queued operation only when no operation is active (and leaves the state
untouched otherwise); and no operation reorders the queue — each step
either leaves the pending queue unchanged, pops only its front (idle
`start_next_request`), or appends only at its back (`queue_request`). -/
theorem node_state_serialization_fifo (s : NodeState) :
    (∀ ops : List NodeOp, (ops.foldl NodeState.applyOp s).activeCount ≤ 1) ∧
    (∀ a, s.active_request = some a → s.start_next_request = (s, some a)) ∧
    (s.active_request = none →
      s.start_next_request =
        ({ s with active_request := s.pending_requests.head?,
                  pending_requests := s.pending_requests.tail },
         s.pending_requests.head?)) ∧
    (∀ op : NodeOp,
      (s.applyOp op).pending_requests = s.pending_requests ∨
      (op = .startNext ∧ s.active_request = none ∧
        (s.applyOp op).pending_requests = s.pending_requests.tail) ∨
      (∃ r, op = .queue r ∧
        (s.applyOp op).pending_requests = s.pending_requests ++ [r])) := by
  refine ⟨?_, ?_, ?_, ?_⟩
  · intro ops
    have hcount : ∀ t : NodeState, t.activeCount ≤ 1 := by
      intro t
      cases h : t.active_request <;> simp [NodeState.activeCount, h]
    exact hcount _
  · intro a ha
    simp [NodeState.start_next_request, ha]
  · intro ha
    simp [NodeState.start_next_request, ha]
  · intro op
    cases op with
    | queue r =>
      exact .inr (.inr ⟨r, rfl, by
        simp [NodeState.applyOp, NodeState.queue_request]⟩)
    | startNext =>
      cases ha : s.active_request with
      | none =>
        exact .inr (.inl ⟨rfl, rfl, by
          simp [NodeState.applyOp, NodeState.start_next_request, ha]⟩)
      | some a =>
        exact .inl (by
          simp [NodeState.applyOp, NodeState.start_next_request, ha])
    | complete =>
      exact .inl (by
        simp [NodeState.applyOp, NodeState.complete_active_request])
    | checkTimeout now =>
      refine .inl ?_
      cases ha : s.active_request with
      | none => simp [NodeState.applyOp, NodeState.check_timeout, ha]
      | some a =>
        simp only [NodeState.applyOp, NodeState.check_timeout, ha]
        split <;> simp [NodeState.complete_active_request]

/-- C3 witness: the queue-discipline theorem applied to an idle session
holding one queued request, which `start_next_request` activates. -/
theorem node_state_serialization_fifo_witness :
    NodeState.start_next_request ⟨[⟨7, 0⟩], none, 100⟩ =
      (⟨[], some ⟨7, 0⟩, 100⟩, some ⟨7, 0⟩) := by
  have h := (node_state_serialization_fifo ⟨[⟨7, 0⟩], none, 100⟩).2.2.1 rfl
  exact h.trans (by decide)

/-- C4: whenever a device session's active operation is older than the
device's timeout, the periodic timeout check frees the active slot
(session present in the output with `active_request = none`), delivers a
`Timeout` error to the operation's single waiter, and the freed session's
`start_next_request` then activates the head of the pending queue, so
the next queued operation is dispatched on a following loop iteration. -/
theorem timeout_frees_slot_and_unblocks (now : Nat)
    (nodes : List (Nat × NodeState)) (node_id : Nat)
    (s : NodeState) (a : PendingSdoRequest)
    (hmem : (node_id, s) ∈ nodes)
    (hactive : s.active_request = some a)
    (htime : s.timeout < now - a.timestamp) :
    (node_id, { s with active_request := none }) ∈
      (check_timeouts now nodes).1 ∧
    (a.operation, SdoError.Timeout) ∈ (check_timeouts now nodes).2 ∧
    ({ s with active_request := none } : NodeState).start_next_request.2 =
      s.pending_requests.head? := by
  have hct : NodeState.check_timeout now s =
      ({ s with active_request := none }, some a) := by
    simp [NodeState.check_timeout, hactive, htime,
      NodeState.complete_active_request]
  refine ⟨?_, ?_, ?_⟩
  · exact List.mem_map.mpr ⟨(node_id, s), hmem, by simp [hct]⟩
  · exact List.mem_filterMap.mpr ⟨(node_id, s), hmem, by simp [hct]⟩
  · simp [NodeState.start_next_request]

/-- C4 witness: the timeout theorem applied at clock 200 to one session
with timeout 100 whose active operation was submitted at 10 (age 190),
with one queued operation that becomes dispatchable. -/
theorem timeout_frees_slot_and_unblocks_witness :
    (3, ({ pending_requests := [⟨9, 150⟩], active_request := none,
           timeout := 100 } : NodeState)) ∈
      (check_timeouts 200 [(3, ⟨[⟨9, 150⟩], some ⟨8, 10⟩, 100⟩)]).1 ∧
    (8, SdoError.Timeout) ∈
      (check_timeouts 200 [(3, ⟨[⟨9, 150⟩], some ⟨8, 10⟩, 100⟩)]).2 ∧
    ({ pending_requests := [⟨9, 150⟩], active_request := none,
       timeout := 100 } : NodeState).start_next_request.2 = some ⟨9, 150⟩ := by
  have h := timeout_frees_slot_and_unblocks 200
    [(3, ⟨[⟨9, 150⟩], some ⟨8, 10⟩, 100⟩)] 3 ⟨[⟨9, 150⟩], some ⟨8, 10⟩, 100⟩
    ⟨8, 10⟩ (by decide) rfl (by decide)
  exact ⟨h.1, h.2.1, h.2.2.trans (by decide)⟩

lemma runWrites_all_ok (dev : SdoWriteRequest → Except CANopenError Unit)
    (l : List SdoWriteRequest) (h : ∀ u ∈ l, dev u = .ok ()) :
    runWrites dev l = (l, .ok ()) := by
  induction l with
  | nil => rfl
  | cons w rest ih =>
    have hw := h w (by simp)
    simp [runWrites, hw, ih fun u hu => h u (by simp [hu])]

lemma runWrites_first_error (dev : SdoWriteRequest → Except CANopenError Unit)
    (pre : List SdoWriteRequest) (w : SdoWriteRequest)
    (post : List SdoWriteRequest) (e : CANopenError)
    (hpre : ∀ u ∈ pre, dev u = .ok ()) (hw : dev w = .error e) :
    runWrites dev (pre ++ w :: post) = (pre ++ [w], .error e) := by
  induction pre with
  | nil => simp [runWrites, hw]
  | cons p rest ih =>
    have hp := hpre p (by simp)
    simp [runWrites, hp, ih fun u hu => hpre u (by simp [hu])]

/-- C7: `configure_tpdo` rejects the whole transaction, before issuing
any SDO write, exactly when the TPDO number is outside 1..4 or more than
8 mappings are given; otherwise it issues the writes of
`tpdoWriteSequence` strictly in order — when every write succeeds, all
of them are performed in sequence and the call succeeds; when a write
fails, exactly the preceding writes plus the failing one are performed,
the failing step's error is returned, and no later step runs. -/
theorem configure_tpdo_validates_and_orders
    (dev : SdoWriteRequest → Except CANopenError Unit)
    (node_id : Nat) (config : TpdoConfigParams) :
    ((config.tpdo_number < 1 ∨ 4 < config.tpdo_number) →
      configure_tpdo dev node_id config =
        ([], .error (.RequestFailed "TPDO number must be 1-4"))) ∧
    (1 ≤ config.tpdo_number → config.tpdo_number ≤ 4 →
      8 < config.mappings.length →
      configure_tpdo dev node_id config =
        ([], .error (.RequestFailed
          "Maximum 8 objects can be mapped to a TPDO"))) ∧
    (1 ≤ config.tpdo_number → config.tpdo_number ≤ 4 →
      config.mappings.length ≤ 8 →
      ((∀ u ∈ tpdoWriteSequence node_id config, dev u = .ok ()) →
        configure_tpdo dev node_id config =
          (tpdoWriteSequence node_id config, .ok ())) ∧
      (∀ pre w post e,
        tpdoWriteSequence node_id config = pre ++ w :: post →
        (∀ u ∈ pre, dev u = .ok ()) → dev w = .error e →
        configure_tpdo dev node_id config = (pre ++ [w], .error e))) := by
  refine ⟨?_, ?_, ?_⟩
  · intro h
    rw [configure_tpdo, if_pos h]
  · intro h1 h2 h3
    rw [configure_tpdo, if_neg (by omega), if_pos h3]
  · intro h1 h2 h3
    have hval : configure_tpdo dev node_id config =
        runWrites dev (tpdoWriteSequence node_id config) := by
      rw [configure_tpdo, if_neg (by omega), if_neg (by omega)]
    constructor
    · intro hok
      rw [hval, runWrites_all_ok dev _ hok]
    · intro pre w post e hseq hpre hw
      rw [hval, hseq, runWrites_first_error dev pre w post e hpre hw]

/-- C7 witness: the transaction theorem applied to TPDO 2 on node 5 with
no mappings against a device failing every subindex-0 write: exactly the
disable write and the failing zero-mapping-count write are performed and
the failing step's error is returned. -/
theorem configure_tpdo_validates_and_orders_witness :
    configure_tpdo
      (fun u => if u.subindex == 0 then .error (.RequestFailed "boom")
                else .ok ())
      5 ⟨2, 0x280, 0xFE, 0, 0, []⟩ =
    ([⟨5, 0x1801, 1, leBytes 4 (0x280 ||| 0x80000000)⟩,
      ⟨5, 0x1A01, 0, [0]⟩], .error (.RequestFailed "boom")) := by
  have h := ((configure_tpdo_validates_and_orders
    (fun u => if u.subindex == 0 then .error (.RequestFailed "boom")
              else .ok ())
    5 ⟨2, 0x280, 0xFE, 0, 0, []⟩).2.2 (by decide) (by decide)
    (by decide)).2
    [⟨5, 0x1801, 1, leBytes 4 (0x280 ||| 0x80000000)⟩]
    ⟨5, 0x1A01, 0, [0]⟩
    [⟨5, 0x1A01, 0, [0 % 256]⟩, ⟨5, 0x1801, 2, [0xFE]⟩,
     ⟨5, 0x1801, 1, leBytes 4 0x280⟩]
    (.RequestFailed "boom") (by decide) (by decide) (by decide)
  exact h

/-- A concrete device oracle for TPDO discovery: TPDO 1's COB-ID reads
as 0x182 (enabled), its mapping count as 2, its first mapping entry read
fails (Timeout), its second reads as 0x20010210 (index 0x2001,
subindex 2, 16 bits); every other read fails. -/
def faultyMappingDevice : SdoRequest → Except SdoError SdoResponseData :=
  fun r =>
    if r.index = 0x1800 ∧ r.subindex = 1 then .ok (.UInt32 0x182)
    else if r.index = 0x1A00 ∧ r.subindex = 0 then .ok (.UInt8 2)
    else if r.index = 0x1A00 ∧ r.subindex = 1 then .error .Timeout
    else if r.index = 0x1A00 ∧ r.subindex = 2 then .ok (.UInt32 0x20010210)
    else .error .Timeout

/-- C8 counterexample: the read of TPDO 1's first mapping entry fails,
yet TPDO 1's discovery is not aborted — the discovered configuration
still contains the entry obtained from the subsequent read of mapping
subindex 2, so an SDO read failure while discovering one TPDO does not
move discovery on to the next TPDO number as the claim states. -/
theorem discovery_counterexample :
    faultyMappingDevice ⟨1, 0x1A00, 1, .UInt32⟩ = .error .Timeout ∧
    discover_tpdos_from_device faultyMappingDevice 1 =
      [⟨1, 0x182, [⟨0x2001, 0x02, 16, .UInt16, "0x2001:02"⟩]⟩] := by
  constructor
  · decide
  · decide

lemma discoverOne_tpdo_number
    (read : SdoRequest → Except SdoError SdoResponseData)
    (node_id tpdo_num : Nat) (cfg : TpdoConfig)
    (h : discoverOne read node_id tpdo_num = some cfg) :
    cfg.tpdo_number = tpdo_num := by
  simp only [discoverOne] at h
  cases hr1 : read ⟨node_id, 0x1800 + (tpdo_num - 1), 1, .UInt32⟩ with
  | error e => rw [hr1] at h; simp at h
  | ok d =>
    rw [hr1] at h
    cases d <;> simp at h
    obtain ⟨hb, h⟩ := h
    cases hr2 : read ⟨node_id, 0x1A00 + (tpdo_num - 1), 0, .UInt8⟩ with
    | error e2 => rw [hr2] at h; simp at h
    | ok d2 =>
      rw [hr2] at h
      cases d2 <;> simp at h
      obtain ⟨hc, hne, hcfg⟩ := h
      rw [← hcfg]

/-- C8 amended: during discovery over TPDO numbers 1 to 4, a COB-ID with
bit 31 set skips that TPDO entirely (absent from the result, not an
error), and a COB-ID (or count) read failure likewise skips just that
TPDO; every configuration in the result comes from its own TPDO
number's iteration; but a failure reading one mapping entry skips only
that entry — discovery of the same TPDO continues over the remaining
mapping subindexes and keeps their entries — and discovery as a whole
always returns a (possibly partial) list, never an error. -/
theorem discovery_skip_semantics
    (read : SdoRequest → Except SdoError SdoResponseData) (node_id : Nat) :
    (∀ tpdo_num v,
      read ⟨node_id, 0x1800 + (tpdo_num - 1), 1, .UInt32⟩ = .ok (.UInt32 v) →
      v &&& 0x80000000 ≠ 0 →
      discoverOne read node_id tpdo_num = none) ∧
    (∀ tpdo_num e,
      read ⟨node_id, 0x1800 + (tpdo_num - 1), 1, .UInt32⟩ = .error e →
      discoverOne read node_id tpdo_num = none) ∧
    (∀ tpdo_num v e,
      read ⟨node_id, 0x1800 + (tpdo_num - 1), 1, .UInt32⟩ = .ok (.UInt32 v) →
      v &&& 0x80000000 = 0 →
      read ⟨node_id, 0x1A00 + (tpdo_num - 1), 0, .UInt8⟩ = .error e →
      discoverOne read node_id tpdo_num = none) ∧
    (∀ cfg ∈ discover_tpdos_from_device read node_id,
      1 ≤ cfg.tpdo_number ∧ cfg.tpdo_number ≤ 4 ∧
      discoverOne read node_id cfg.tpdo_number = some cfg) ∧
    (∀ mapping_param_index sub e,
      read ⟨node_id, mapping_param_index, sub, .UInt32⟩ = .error e →
      readMappingEntry read node_id mapping_param_index sub = none) ∧
    (∀ tpdo_num v c,
      read ⟨node_id, 0x1800 + (tpdo_num - 1), 1, .UInt32⟩ = .ok (.UInt32 v) →
      v &&& 0x80000000 = 0 →
      read ⟨node_id, 0x1A00 + (tpdo_num - 1), 0, .UInt8⟩ = .ok (.UInt8 c) →
      c ≠ 0 →
      ((List.range' 1 c).filterMap
        (readMappingEntry read node_id (0x1A00 + (tpdo_num - 1)))).isEmpty
          = false →
      discoverOne read node_id tpdo_num =
        some ⟨tpdo_num, v &&& 0x7FF,
          (List.range' 1 c).filterMap
            (readMappingEntry read node_id (0x1A00 + (tpdo_num - 1)))⟩) := by
  refine ⟨?_, ?_, ?_, ?_, ?_, ?_⟩
  · intro tpdo_num v h hv
    simp [discoverOne, h, hv]
  · intro tpdo_num e h
    simp [discoverOne, h]
  · intro tpdo_num v e h1 h2 h3
    simp [discoverOne, h1, h2, h3]
  · intro cfg hcfg
    obtain ⟨u, hu, hd⟩ := List.mem_filterMap.mp hcfg
    have ht := discoverOne_tpdo_number read node_id u cfg hd
    have hr := List.mem_range'_1.mp hu
    exact ⟨by omega, by omega, by rw [ht]; exact hd⟩
  · intro mapping_param_index sub e h
    simp [readMappingEntry, h]
  · intro tpdo_num v c h1 h2 h3 h4 h5
    simp [discoverOne, h1, h2, h3, h4, h5]

/-- A concrete device oracle whose TPDO 1 COB-ID reads as 0x200
(enabled) but whose mapping-count read — like every other read —
fails. -/
def countFailDevice : SdoRequest → Except SdoError SdoResponseData :=
  fun r =>
    if r.index = 0x1800 ∧ r.subindex = 1 then .ok (.UInt32 0x200)
    else .error .Timeout

/-- C8 amended witness: the skip-semantics theorem applied to the
concrete faulty devices — TPDO 2's COB-ID read fails so TPDO 2 is
skipped, a failing mapping-count read skips TPDO 1 of the second
device, and TPDO 1's failing first mapping read skips only that
entry. -/
theorem discovery_skip_semantics_witness :
    discoverOne faultyMappingDevice 1 2 = none ∧
    discoverOne countFailDevice 1 1 = none ∧
    readMappingEntry faultyMappingDevice 1 0x1A00 1 = none := by
  have h := discovery_skip_semantics faultyMappingDevice 1
  have h2 := discovery_skip_semantics countFailDevice 1
  exact ⟨h.2.1 2 .Timeout (by decide),
         h2.2.2.1 1 0x200 .Timeout (by decide) (by decide) (by decide),
         h.2.2.2.2.1 0x1A00 1 .Timeout (by decide)⟩

/-- C9 counterexample: submitting an operation for unregistered node 5
delivers `SdoError::InvalidResponse "Node 5 not connected"`, whose
connection-layer image under `From<SdoError>` is
`RequestFailed "Invalid response: Node 5 not connected"` — not the
`NodeNotConnected` variant the claim names (that variant is dead code in
the source). -/
theorem not_connected_error_counterexample :
    handle_sdo_request_command [] 5 ⟨1, 0⟩ =
      ([], some (.InvalidResponse "Node 5 not connected")) ∧
    CANopenError.from_sdo (.InvalidResponse "Node 5 not connected") =
      .RequestFailed "Invalid response: Node 5 not connected" ∧
    CANopenError.from_sdo (.InvalidResponse "Node 5 not connected") ≠
      .NodeNotConnected 5 := by
  refine ⟨?_, ?_, ?_⟩ <;> decide

/-- C9 amended: submitting a read or write operation for a device
identifier with no registered session fails immediately with an explicit
`InvalidResponse "Node {id} not connected"` SDO error delivered to the
caller (surfacing as a `RequestFailed` connection error, not
`NodeNotConnected`), and the node table — hence every queue — is left
untouched. -/
theorem not_connected_rejects_immediately (nodes : List (Nat × NodeState))
    (node_id : Nat) (r : PendingSdoRequest)
    (h : lookupNode nodes node_id = none) :
    handle_sdo_request_command nodes node_id r =
      (nodes, some (.InvalidResponse
        ("Node " ++ toString node_id ++ " not connected"))) := by
  simp [handle_sdo_request_command, h]

/-- C9 amended witness: the rejection theorem applied to a table holding
only node 3 while node 5 submits an operation. -/
theorem not_connected_rejects_immediately_witness :
    handle_sdo_request_command [(3, ⟨[], none, 100⟩)] 5 ⟨1, 0⟩ =
      ([(3, ⟨[], none, 100⟩)],
       some (.InvalidResponse "Node 5 not connected")) := by
  have h := not_connected_rejects_immediately [(3, ⟨[], none, 100⟩)] 5 ⟨1, 0⟩
    (by decide)
  exact h.trans (by decide)

end CanOpenDataViewer
